import Mathlib

/-!
Verification of the WCAG2.1 accessibility scanner (`src/scanner.py`).

The program is a sequential pipeline: a file locator (`find_files`,
`get_affected_files`, `get_changed_files`), a scan dispatcher
(`scan_html_file` with a Puppeteer primary path and a text-heuristic
fallback), and a report renderer (`generate_html_report`,
`generate_json_report`).  This file gives a shallow embedding of those
functions and proves the specified properties about them.

Python strings are modelled as `List Char` (named `PyStr`) with
structural-recursive implementations of the string operations the
scanner uses (`in`, `split`, `strip`, suffix matching), so that every
definition evaluates inside the kernel.
-/

namespace WCAG

/-- Python strings, modelled as character lists so all operations reduce. -/
abbrev PyStr := List Char

/-- Coerce a Lean string literal to the model representation. -/
def S (s : String) : PyStr := s.data

/-- `startsWithL pre s`: does `s` begin with `pre`? -/
def startsWithL : PyStr → PyStr → Bool
  | [], _ => true
  | _ :: _, [] => false
  | p :: ps, c :: cs => p == c && startsWithL ps cs

/-- Helper for `pyIn`: does `needle` occur (contiguously) in the string? -/
def occursIn (needle : PyStr) : PyStr → Bool
  | [] => startsWithL needle []
  | c :: rest => startsWithL needle (c :: rest) || occursIn needle rest

/-- Python `needle in s` substring membership. -/
def pyIn (needle s : PyStr) : Bool := occursIn needle s

/-- Worker for `pySplit`; the fuel is always at least `s.length + 1`,
    so the fuel-exhausted branch is unreachable for non-empty separators. -/
def pySplitGo (sep : PyStr) : Nat → PyStr → PyStr → List PyStr
  | 0, rest, cur => [cur.reverse ++ rest]
  | fuel+1, rest, cur =>
    if startsWithL sep rest then
      cur.reverse :: pySplitGo sep fuel (rest.drop sep.length) []
    else
      match rest with
      | [] => [cur.reverse]
      | c :: rest2 => pySplitGo sep fuel rest2 (c :: cur)

/-- Python `s.split(sep)` for a non-empty separator: successive chunks
    between non-overlapping left-to-right occurrences of `sep`.
    (Python raises on an empty separator; the scanner never passes one.) -/
def pySplit (sep s : PyStr) : List PyStr :=
  if sep.isEmpty then [s] else pySplitGo sep (s.length + 1) s []

/-- ASCII whitespace recognised by Python `str.strip()`. -/
def isPySpace (c : Char) : Bool :=
  c == ' ' || c == '\t' || c == '\n' || c == '\r' || c == '\x0b' || c == '\x0c'

/-- Python `s.strip()`. -/
def pyStrip (s : PyStr) : PyStr :=
  ((s.dropWhile isPySpace).reverse.dropWhile isPySpace).reverse

/-- Does `s` end with `suffix`? -/
def endsWithL (s suffix : PyStr) : Bool := startsWithL suffix.reverse s.reverse

/-- `fnmatch.fnmatch(name, "*" ++ suffix)` for a wildcard-free `suffix`
    (every pattern the scanner builds has this shape). -/
def fnmatchStarSuffix (name suffix : PyStr) : Bool := endsWithL name suffix

/-- `fnmatch.fnmatch(name, pat)` for a pattern of the form `*` followed by
    a literal (all entries of `Config.EXCLUDE_FILE_PATTERNS` have this shape). -/
def fnmatchStarPat (name pat : PyStr) : Bool := endsWithL name (pat.drop 1)

/-! ## Config (scanner.py lines 41-52) -/

/-- `Config.EXCLUDE_DIRS` (lines 45-49). -/
def EXCLUDE_DIRS : List PyStr :=
  [S "node_modules", S "dist", S "build", S "www", S ".git",
   S "coverage", S ".angular", S "ios", S "android", S "platforms",
   S "Pods", S "DerivedData", S ".idea", S ".vscode"]

/-- `Config.EXCLUDE_FILE_PATTERNS` (line 50). -/
def EXCLUDE_FILE_PATTERNS : List PyStr :=
  [S "*.d.ts", S "*.spec.ts", S "*.test.ts", S "*.mock.ts", S "*.data.ts"]

/-- `Config.FILE_LIMITS["html"]` (line 51). -/
def FILE_LIMIT_HTML : Nat := 1000

/-- `Config.TIMEOUT_PER_FILE` (line 52). -/
def TIMEOUT_PER_FILE : Nat := 120

/-! ## File locator -/

/-- `os.path` strings built by `os.walk`: path segments joined with `/`. -/
def joinPath (segs : List PyStr) : PyStr := List.intercalate (S "/") segs

/-- `AccessibilityScanner.should_exclude_file` (lines 88-103).  A path is
    given by its segments (`Path.parts`); the filename is the last segment.
    The file is excluded when the filename matches one of
    `EXCLUDE_FILE_PATTERNS` or some exact path segment is in `EXCLUDE_DIRS`. -/
def should_exclude_file (parts : List PyStr) : Bool :=
  let filename := parts.getLastD []
  EXCLUDE_FILE_PATTERNS.any (fun pat => fnmatchStarPat filename pat)
  || parts.any (fun part => EXCLUDE_DIRS.any (fun d => d == part))

/-- A file-system tree for modelling `os.walk`.  `dir files children` is a
    directory node (its files, then its subdirectory list); subdirectory
    lists are spines built from `fcons name subtree rest` and `fnil`, which
    mirrors the `dirs` list that `os.walk` yields and the scanner prunes. -/
inductive FS : Type where
  | dir (files : List PyStr) (children : FS) : FS
  | fnil : FS
  | fcons (name : PyStr) (d : FS) (rest : FS) : FS

/-- Recognises a well-formed subdirectory spine (`fnil`/`fcons` at the top). -/
def isForestSpine : FS → Bool
  | .dir _ _ => false
  | .fnil => true
  | .fcons _ _ rest => isForestSpine rest

/-- The files of one walked directory that `find_files` keeps
    (lines 116-124): filename matches `*{pattern}` and
    `should_exclude_file` does not fire on the full path. -/
def fileHits (pat : PyStr) (segs : List PyStr) (files : List PyStr) : List (List PyStr) :=
  files.filterMap (fun fn =>
    if fnmatchStarSuffix fn pat && !should_exclude_file (segs ++ [fn]) then
      some (segs ++ [fn])
    else none)

/-- The `os.walk` loop of `AccessibilityScanner.find_files` (lines 105-127).
    At a directory node the matching files of the current root are collected,
    then each subdirectory `d` is entered only if
    `d not in exclude_dirs and not any(excl in root for excl in exclude_dirs)`
    (line 114) — note the second conjunct is a substring test on the
    accumulated root path and does not depend on `d`. -/
def walkFS (pat : PyStr) (segs : List PyStr) (rootStr : PyStr) : FS → List (List PyStr)
  | .dir files children => fileHits pat segs files ++ walkFS pat segs rootStr children
  | .fnil => []
  | .fcons name d rest =>
    (if !(EXCLUDE_DIRS.any (fun x => x == name))
        && !(EXCLUDE_DIRS.any (fun excl => pyIn excl rootStr)) then
      walkFS pat (segs ++ [name]) (joinPath (segs ++ [name])) d
    else []) ++ walkFS pat segs rootStr rest

/-- `AccessibilityScanner.find_files` (lines 105-127) over a modelled tree
    rooted at the repository path `repoSegs`. -/
def find_files (repoSegs : List PyStr) (pat : PyStr) (tree : FS) : List (List PyStr) :=
  walkFS pat repoSegs (joinPath repoSegs) tree

/-- Outcome of the `git diff` subprocess in `get_changed_files`:
    either an exception escaped `subprocess.run` (including
    `TimeoutExpired`, both caught by the `except Exception` at line 190),
    or the process completed with an exit code, stdout and stderr. -/
inductive GitOutcome : Type where
  | exn (msg : PyStr) : GitOutcome
  | completed (returncode : Int) (stdout stderr : PyStr) : GitOutcome

/-- `AccessibilityScanner.get_changed_files` (lines 161-192).
    `existsCheck` models `full_path.exists()`; on a git exception or a
    non-zero exit code the function degrades to `find_files`. -/
def get_changed_files (repoSegs : List PyStr) (pat : PyStr) (tree : FS)
    (git : GitOutcome) (existsCheck : List PyStr → Bool) : List (List PyStr) :=
  match git with
  | .exn _ => find_files repoSegs pat tree
  | .completed rc stdout _ =>
    if rc != 0 then find_files repoSegs pat tree
    else
      let changed := if pyStrip stdout != ([] : PyStr)
                     then pySplit (S "\n") (pyStrip stdout) else []
      changed.filterMap (fun fp =>
        if fp != ([] : PyStr) && fnmatchStarSuffix fp pat
            && existsCheck (repoSegs ++ pySplit (S "/") fp)
            && !should_exclude_file (repoSegs ++ pySplit (S "/") fp) then
          some (repoSegs ++ pySplit (S "/") fp)
        else none)

/-- `Config.SCAN_MODE` values set from the command line (`--mode all` /
    `--mode affected`; `auto` leaves it `None`). -/
inductive ScanMode : Type where
  | all : ScanMode
  | affected : ScanMode

/-- Environment signals read by `get_affected_files` (lines 132-142). -/
structure GhEnv : Type where
  scanMode : Option ScanMode
  eventName : PyStr
  baseRef : PyStr
  headRef : PyStr

/-- `AccessibilityScanner.get_affected_files` (lines 129-159): command-line
    override first; otherwise a pull-request event selects `get_changed_files`
    and every other event (including pushes to `main`/`master`, whose branch
    also calls `find_files`) selects a full `find_files` walk. -/
def get_affected_files (env : GhEnv) (repoSegs : List PyStr) (pat : PyStr)
    (tree : FS) (git : GitOutcome) (existsCheck : List PyStr → Bool) : List (List PyStr) :=
  match env.scanMode with
  | some .all => find_files repoSegs pat tree
  | some .affected => get_changed_files repoSegs pat tree git existsCheck
  | none =>
    if env.eventName == S "pull_request" then
      get_changed_files repoSegs pat tree git existsCheck
    else if env.eventName == S "push"
        && (env.baseRef == S "main" || env.baseRef == S "master") then
      find_files repoSegs pat tree
    else
      find_files repoSegs pat tree

/-! ## Scan dispatcher -/

/-- JSON values, for the output of `json.loads` on subprocess output. -/
inductive Json : Type where
  | null : Json
  | bool (b : Bool) : Json
  | num (n : Int) : Json
  | str (s : PyStr) : Json
  | arr (elems : List Json) : Json
  | obj (fields : List (PyStr × Json)) : Json

/-- Python `dict.get(k, default)` on a parsed JSON object. -/
def pyDictGet (fields : List (PyStr × Json)) (k : PyStr) (dflt : Json) : Json :=
  match fields.find? (fun p => p.1 == k) with
  | some p => p.2
  | none => dflt

/-- Python `key in value` on an arbitrary value, as used at line 366
    (`"error" in result`): key membership for a dict, element equality for a
    list, substring for a string — and a `TypeError` for `None`, booleans and
    numbers, which are not iterable. -/
def pyInJson (key : PyStr) : Json → Except PyStr Bool
  | .obj fields => .ok (fields.any (fun p => p.1 == key))
  | .arr elems => .ok (elems.any (fun j => match j with | .str s => s == key | _ => false))
  | .str s => .ok (pyIn key s)
  | _ => .error (S "TypeError: argument of type is not iterable")

/-- Outcome of the `node` subprocess running the Puppeteer/axe script:
    `timeout` for `subprocess.TimeoutExpired` (line 273), `exn` for any other
    exception in the try block (line 275), or a completed process. -/
inductive ProcOutcome : Type where
  | timeout : ProcOutcome
  | exn (msg : PyStr) : ProcOutcome
  | completed (returncode : Int) (stdout stderr : PyStr) : ProcOutcome

/-- `AccessibilityScanner.scan_html_with_puppeteer_axe` (lines 194-276).
    `loads` models `json.loads` (`none` = `JSONDecodeError`); `fileName` is
    `html_file.name`.  On exit code 0 with non-empty stripped stdout the
    parsed JSON is returned as-is (malformed JSON yields an error dict); on
    any failure an error dict is built from stderr-or-stdout, re-using its
    `error` field when it parses as a JSON object (a non-dict parse hits the
    `.get` `AttributeError` caught by the bare `except` at line 270). -/
def scan_html_with_puppeteer_axe (loads : PyStr → Option Json)
    (fileName : PyStr) (proc : ProcOutcome) : Json :=
  match proc with
  | .timeout =>
    .obj [(S "error", .str (S "Timeout after 120 seconds for " ++ fileName))]
  | .exn m =>
    .obj [(S "error", .str (S "Exception for " ++ fileName ++ S ": " ++ m))]
  | .completed rc stdout stderr =>
    if rc == 0 && pyStrip stdout != ([] : PyStr) then
      match loads stdout with
      | some j => j
      | none =>
        .obj [(S "error",
               .str (S "Invalid JSON output for " ++ fileName ++ S ": " ++ stdout))]
    else
      let errorMsg := if stderr != ([] : PyStr) then stderr else stdout
      match loads errorMsg with
      | some (.obj fields) =>
        .obj [(S "error", pyDictGet fields (S "error") (.str errorMsg))]
      | _ =>
        .obj [(S "error",
               .str (S "Puppeteer error for " ++ fileName ++ S ": " ++ errorMsg))]

/-! ## Fallback heuristic scan -/

/-- One entry of a violation's `nodes` list. -/
structure VNode : Type where
  html : PyStr
  target : List PyStr

/-- The violation shape emitted by both scan paths. -/
structure Violation : Type where
  id : PyStr
  impact : PyStr
  help : PyStr
  helpUrl : PyStr
  nodes : List VNode

/-- Decimal rendering of a counter for the `nth-of-type` targets. -/
def natToStr (n : Nat) : PyStr := (toString n).data

/-- Missing-alt-text check (lines 288-300): every chunk after an `<img`
    occurrence lacking both `" alt="` and `" alt ="` yields an `image-alt`
    violation. -/
def imgViolations (content : PyStr) : List Violation :=
  ((pySplit (S "<img") content).tail.enum).filterMap (fun p =>
    if !pyIn (S " alt=") p.2 && !pyIn (S " alt =") p.2 then
      some { id := S "image-alt", impact := S "critical",
             help := S "Images must have alternate text",
             helpUrl := S "https://dequeuniversity.com/rules/axe/4.7/image-alt",
             nodes := [{ html := S "<img" ++ (pySplit (S ">") p.2).headD [] ++ S ">",
                         target := [S "img:nth-of-type(" ++ natToStr (p.1 + 1) ++ S ")"] }] }
    else none)

/-- Missing-form-label check for one element tag (lines 302-318). -/
def formLabelViolationsFor (content elementTag : PyStr) : List Violation :=
  if pyIn elementTag content then
    ((pySplit elementTag content).tail.enum).filterMap (fun p =>
      if (!pyIn (S " id=") p.2 || !pyIn (S " for=") content)
          && !pyIn (S " aria-label=") p.2 then
        some { id := S "label", impact := S "serious",
               help := S "Form elements must have labels",
               helpUrl := S "https://dequeuniversity.com/rules/axe/4.7/label",
               nodes := [{ html := elementTag ++ (pySplit (S ">") p.2).headD [] ++ S ">",
                           target := [elementTag.drop 1 ++ S ":nth-of-type("
                                      ++ natToStr (p.1 + 1) ++ S ")"] }] }
      else none)
  else []

/-- Missing-`lang`-attribute check (lines 320-331). -/
def langViolations (content : PyStr) : List Violation :=
  if pyIn (S "<html") content && !pyIn (S " lang=") content
      && !pyIn (S " lang =") content then
    [{ id := S "html-has-lang", impact := S "serious",
       help := S "<html> element must have a lang attribute",
       helpUrl := S "https://dequeuniversity.com/rules/axe/4.7/html-has-lang",
       nodes := [{ html := S "<html>", target := [S "html"] }] }]
  else []

/-- Missing-title check (lines 333-344). -/
def titleViolations (content : PyStr) : List Violation :=
  if !pyIn (S "<title>") content then
    [{ id := S "document-title", impact := S "serious",
       help := S "Documents must have a title element",
       helpUrl := S "https://dequeuniversity.com/rules/axe/4.7/document-title",
       nodes := [{ html := S "<head>", target := [S "head"] }] }]
  else []

/-- The dict built by the success path of
    `scan_html_with_alternative_method` (lines 346-353): the concatenated
    heuristic violations in source order, and literally empty `passes`,
    `incomplete` and `inapplicable` lists. -/
structure AxeResult : Type where
  violations : List Violation
  passes : List Violation
  incomplete : List Violation
  inapplicable : List Violation

/-- The heuristic result for a file content (lines 280-353, success path). -/
def altResult (content : PyStr) : AxeResult :=
  { violations :=
      imgViolations content
      ++ ([S "<input", S "<select", S "<textarea"].flatMap
            (formLabelViolationsFor content))
      ++ langViolations content
      ++ titleViolations content,
    passes := [], incomplete := [], inapplicable := [] }

/-- JSON encoding of one node entry. -/
def vnodeJson (n : VNode) : Json :=
  .obj [(S "html", .str n.html), (S "target", .arr (n.target.map Json.str))]

/-- JSON encoding of one violation entry. -/
def violationJson (v : Violation) : Json :=
  .obj [(S "id", .str v.id), (S "impact", .str v.impact),
        (S "help", .str v.help), (S "helpUrl", .str v.helpUrl),
        (S "nodes", .arr (v.nodes.map vnodeJson))]

/-- `AccessibilityScanner.scan_html_with_alternative_method` (lines 278-356).
    `readRes` models `html_file.read_text(...)` (`.error` = an exception,
    caught at line 355); `ts` and `absPath` model the wall-clock timestamp
    and `html_file.absolute()` used in the result dict. -/
def scan_html_with_alternative_method (fileName ts absPath : PyStr)
    (readRes : Except PyStr PyStr) : Json :=
  match readRes with
  | .ok content =>
    let r := altResult content
    .obj [(S "violations", .arr (r.violations.map violationJson)),
          (S "passes", .arr (r.passes.map violationJson)),
          (S "incomplete", .arr (r.incomplete.map violationJson)),
          (S "inapplicable", .arr (r.inapplicable.map violationJson)),
          (S "timestamp", .str ts),
          (S "url", .str (S "file://" ++ absPath))]
  | .error e =>
    .obj [(S "error", .str (S "Exception for " ++ fileName ++ S ": " ++ e))]

/-- `AccessibilityScanner.scan_html_file` (lines 358-370): run the primary
    path; if `"error" in result` holds, replace the result with one fallback
    heuristic attempt.  The membership test itself is Python `in` on an
    arbitrary value and can raise `TypeError` (modelled as `.error`), which
    nothing in `scan_html_file` catches. -/
def scan_html_file (loads : PyStr → Option Json) (fileName ts absPath : PyStr)
    (proc : ProcOutcome) (readRes : Except PyStr PyStr) : Except PyStr Json :=
  let result := scan_html_with_puppeteer_axe loads fileName proc
  match pyInJson (S "error") result with
  | .error e => .error e
  | .ok true => .ok (scan_html_with_alternative_method fileName ts absPath readRes)
  | .ok false => .ok result

/-! ## Result aggregation and reports -/

/-- Relative path of a located file:
    `str(html_file.relative_to(self.repo_path))` (line 715). -/
def relPath (repoSegs : List PyStr) (p : List PyStr) : PyStr :=
  joinPath (p.drop repoSegs.length)

/-- Python `results[k] = v` on an insertion-ordered dict modelled as an
    association list: overwrite the existing entry for `k`, else append. -/
def pyDictInsert (d : List (PyStr × Json)) (k : PyStr) (v : Json) : List (PyStr × Json) :=
  if d.any (fun p => p.1 == k) then
    d.map (fun p => if p.1 == k then (k, v) else p)
  else d ++ [(k, v)]

/-- The aggregation loop of `AccessibilityScanner.run_scan` (lines 697-724):
    the locator output is truncated to the first
    `Config.FILE_LIMITS["html"]` entries (line 703), and each remaining file
    is scanned once and stored under its repository-relative path
    (line 715).  `scan` models `scan_html_file` for one file. -/
def run_scan (repoSegs : List PyStr) (located : List (List PyStr))
    (scan : List PyStr → Json) : List (PyStr × Json) :=
  let htmlFiles := located.take FILE_LIMIT_HTML
  htmlFiles.foldl (fun results f => pyDictInsert results (relPath repoSegs f) (scan f)) []

/-- `AccessibilityScanner.generate_json_report` (lines 690-695):
    `json.dump(results, ...)` serialises the aggregate mapping verbatim, so
    the written report is modelled as the mapping itself. -/
def generate_json_report (results : List (PyStr × Json)) : List (PyStr × Json) :=
  results

/-! ## Report renderer (`generate_html_report`, lines 372-688)

The renderer classifies each result value (lines 506 and 528): a dict with
an `error` key is an error entry; a dict with a `violations` key supplies
the four axe lists; anything else leaves all four lists empty, which the
fragment and counting logic below treats identically to empty axe lists. -/

/-- A classified per-file result value as the renderer sees it. -/
inductive RValue : Type where
  | err (msg : PyStr) : RValue
  | axe (violations incomplete passes inapplicable : List Violation) : RValue
  | plain : RValue

/-- Number of strings the renderer appends to `results_html` for one file:
    one fragment for an error entry (lines 508-520); for a file with
    violations or incomplete entries a header fragment, one fragment per
    violation, one per incomplete entry and a closing fragment
    (lines 552-600); otherwise one clean fragment (lines 602-611). -/
def fileFragments : RValue → Nat
  | .err _ => 1
  | .axe v i _ _ => if 0 < v.length + i.length then 1 + (v.length + i.length) + 1 else 1
  | .plain => 1

/-- Number of `<div class="file-section">` openers emitted for one file:
    each of the three rendering branches emits exactly one. -/
def fileSections : RValue → Nat
  | .err _ => 1
  | .axe _ _ _ _ => 1
  | .plain => 1

/-- `total_files = len(results)` (line 492). -/
def totalFiles (results : List (PyStr × RValue)) : Nat := results.length

/-- `len(results_html)` at line 679: total fragments over all files. -/
def resultsHtmlLen (results : List (PyStr × RValue)) : Nat :=
  (results.map (fun p => fileFragments p.2)).sum

/-- Total number of rendered per-file sections in the emitted document. -/
def sectionTotal (results : List (PyStr × RValue)) : Nat :=
  (results.map (fun p => fileSections p.2)).sum

/-- The post-render sanity check (line 679):
    `html_lines < 100 or total_files != len(results_html)` — a warning (not
    an error) is logged when it holds. -/
def sanity_warn (htmlLines : Nat) (results : List (PyStr × RValue)) : Bool :=
  decide (htmlLines < 100) || totalFiles results != resultsHtmlLen results

/-- This file's `total_incomplete` contribution (line 546). -/
def incompleteContribution : RValue → Nat
  | .err _ => 0
  | .axe _ i _ _ => i.length
  | .plain => 0

/-- Test ids this file adds to the `tests_passed` set (lines 540-541). -/
def passedIdsOf : RValue → List PyStr
  | .err _ => []
  | .axe _ _ p _ => p.map (fun v => v.id)
  | .plain => []

/-- Test ids this file adds to the `tests_inapplicable` set (lines 542-543). -/
def inapplicableIdsOf : RValue → List PyStr
  | .err _ => []
  | .axe _ _ _ ia => ia.map (fun v => v.id)
  | .plain => []

/-- The three visual states a file is rendered in. -/
inductive RenderClass : Type where
  | errorState : RenderClass
  | clean : RenderClass
  | findings : RenderClass
deriving DecidableEq

/-- Which rendering branch a file takes: error (line 506), findings when
    `violations or incomplete` is truthy (line 551), clean otherwise. -/
def renderClass : RValue → RenderClass
  | .err _ => .errorState
  | .axe v i _ _ => if 0 < v.length + i.length then .findings else .clean
  | .plain => .clean

/-- The renderer's view of a fallback success result: a dict containing a
    `violations` key and no `error` key, so it takes the axe branch at
    line 528 with the four lists of the heuristic result. -/
def altRValue (content : PyStr) : RValue :=
  .axe (altResult content).violations (altResult content).incomplete
       (altResult content).passes (altResult content).inapplicable

/-! ## Top-level entry point (`main`, lines 732-771) -/

/-- How one invocation of the program body ends. -/
inductive RunOutcome : Type where
  | success : RunOutcome
  | interrupt : RunOutcome
  | exn (msg : PyStr) : RunOutcome

/-- The process exit code produced by `main` (lines 732-771): normal
    completion falls off the end of `main` (exit 0); the
    `except KeyboardInterrupt` handler (lines 765-766) prints a warning and
    also falls off the end (exit 0); the `except Exception` handler
    (lines 767-771) calls `sys.exit(1)`. -/
def mainExitCode : RunOutcome → Nat
  | .success => 0
  | .interrupt => 0
  | .exn _ => 1

/-! ## Concrete inputs used by witnesses and counterexamples -/

/-- A small repository tree: `index.html` at the root and a `distribution`
    directory holding `page.html` and a subdirectory `sub/inner.html`. -/
def demoTree : FS :=
  .dir [S "index.html"]
    (.fcons (S "distribution")
      (.dir [S "page.html"] (.fcons (S "sub") (.dir [S "inner.html"] .fnil) .fnil))
      .fnil)

/-- The subdirectory spine under `distribution` in `demoTree`. -/
def demoDistChildren : FS := .fcons (S "sub") (.dir [S "inner.html"] .fnil) .fnil

/-- A concrete `json.loads` covering the strings used in concrete runs. -/
def demoLoads : PyStr → Option Json := fun s =>
  if s == S "null" then some Json.null
  else if s == S "\x7b\x7d" then some (Json.obj [])
  else none

/-- A git subprocess that raised an exception. -/
def demoGit : GitOutcome := .exn (S "boom")

/-- A trivially-true `full_path.exists()` oracle. -/
def demoExists : List PyStr → Bool := fun _ => true

/-- Auto-mode environment for a direct push to `main`. -/
def demoEnvPush : GhEnv :=
  { scanMode := none, eventName := S "push", baseRef := S "main", headRef := [] }

/-- A stub per-file scan result. -/
def demoScan : List PyStr → Json := fun _ => Json.obj []

/-- Two located files with distinct relative paths. -/
def demoLocated : List (List PyStr) := [[S "a.html"], [S "b.html"]]

/-- 1001 located files with pairwise distinct single-segment paths. -/
def cxLocated : List (List PyStr) :=
  (List.range 1001).map (fun n => [List.replicate (n + 1) 'a'])

/-- The example document of the spec (section 8). -/
def exampleDoc : PyStr :=
  S "<html><head><title>T</title></head><body><img src=\"a.png\"></body></html>"

/-- A violation record used in renderer counterexamples. -/
def sampleViolation : Violation :=
  { id := S "image-alt", impact := S "critical",
    help := S "Images must have alternate text",
    helpUrl := S "https://dequeuniversity.com/rules/axe/4.7/image-alt",
    nodes := [] }

/-- A one-file aggregate whose only file has exactly one violation. -/
def c7results : List (PyStr × RValue) :=
  [(S "a.html", RValue.axe [sampleViolation] [] [] [])]

/-! ## Helper lemmas -/

/-- Inserting a fresh key into the result dict appends it. -/
theorem pyDictInsert_of_not_mem (d : List (PyStr × Json)) (k : PyStr) (v : Json)
    (h : k ∉ d.map Prod.fst) : pyDictInsert d k v = d ++ [(k, v)] := by
  rw [pyDictInsert, if_neg]
  intro hany
  rcases List.any_eq_true.mp hany with ⟨p, hp, hpk⟩
  exact h (List.mem_map.mpr ⟨p, hp, eq_of_beq hpk⟩)

/-- Keys of the `run_scan` fold: with pairwise distinct incoming keys the
    fold appends one entry per file, in order. -/
theorem run_scan_fold_keys (repoSegs : List PyStr) (scan : List PyStr → Json)
    (fs : List (List PyStr)) :
    ∀ acc : List (PyStr × Json),
      (acc.map Prod.fst ++ fs.map (relPath repoSegs)).Nodup →
      (List.foldl (fun r f => pyDictInsert r (relPath repoSegs f) (scan f)) acc fs).map Prod.fst
        = acc.map Prod.fst ++ fs.map (relPath repoSegs) := by
  induction fs with
  | nil => intro acc _; simp
  | cons f fs ih =>
    intro acc h
    simp only [List.map_cons] at h
    have hk : relPath repoSegs f ∉ acc.map Prod.fst := by
      rcases List.nodup_append.mp h with ⟨_, _, hdisj⟩
      exact fun hmem => hdisj hmem (List.mem_cons_self _ _)
    have hassoc : acc.map Prod.fst ++ relPath repoSegs f :: fs.map (relPath repoSegs)
        = (acc.map Prod.fst ++ [relPath repoSegs f]) ++ fs.map (relPath repoSegs) := by
      simp
    rw [List.foldl_cons, pyDictInsert_of_not_mem acc _ _ hk]
    have hnew : ((acc ++ [(relPath repoSegs f, scan f)]).map Prod.fst
        ++ fs.map (relPath repoSegs)).Nodup := by
      simp only [List.map_append, List.map_cons, List.map_nil]
      rw [← hassoc]
      exact h
    rw [ih _ hnew]
    simp

/-- A repository-root-relative path of a single segment is that segment. -/
theorem relPath_single (s : PyStr) : relPath [] [s] = s := by
  simp [relPath, joinPath, List.intercalate]

/-- Under the substring pruning condition a walked subdirectory spine
    contributes nothing. -/
theorem walkFS_spine_nil (pat : PyStr) (segs : List PyStr) (rootStr : PyStr)
    (h : EXCLUDE_DIRS.any (fun excl => pyIn excl rootStr) = true) :
    ∀ c : FS, isForestSpine c = true → walkFS pat segs rootStr c = []
  | .fnil, _ => rfl
  | .fcons name d rest, hc => by
    have hrest := walkFS_spine_nil pat segs rootStr h rest
      (by simpa [isForestSpine] using hc)
    simp [walkFS, h, hrest]
  | .dir _ _, hc => by simp [isForestSpine] at hc

/-! ## Claims -/

/-- Claim C3: on the spec example document (title present, image without
    alt, no lang attribute) the fallback heuristic reports exactly the two
    violations `image-alt` and `html-has-lang` in that order — in
    particular no `document-title` violation. -/
theorem fallback_example_two_violations :
    (altResult exampleDoc).violations.map (fun v => v.id)
      = [S "image-alt", S "html-has-lang"]
    ∧ (altResult exampleDoc).violations.length = 2
    ∧ (altResult exampleDoc).violations.any (fun v => v.id == S "document-title")
      = false := by
  decide

/-- Claim C2 (code-bug evidence): when the Puppeteer subprocess exits with
    code 0 and prints the valid JSON scalar `null`, the parsed result is
    `None`, and the membership test at line 366 raises a `TypeError` that
    escapes `scan_html_file` — contradicting the never-raises guarantee. -/
theorem scan_html_file_raises_on_scalar_json :
    scan_html_file demoLoads (S "index.html") [] []
        (ProcOutcome.completed 0 (S "null") []) (Except.ok [])
      = Except.error (S "TypeError: argument of type is not iterable") := rfl

/-- Claim C4: whenever the git diff step fails — the subprocess raised
    (including a timeout) or exited non-zero — `get_changed_files` returns
    the full `find_files` walk instead of propagating the failure. -/
theorem get_changed_files_degrades_on_diff_failure (repoSegs : List PyStr)
    (pat : PyStr) (tree : FS) (existsCheck : List PyStr → Bool) (git : GitOutcome)
    (h : (∃ m, git = GitOutcome.exn m)
      ∨ ∃ rc stdout stderr, git = GitOutcome.completed rc stdout stderr ∧ rc ≠ 0) :
    get_changed_files repoSegs pat tree git existsCheck = find_files repoSegs pat tree := by
  rcases h with ⟨m, rfl⟩ | ⟨rc, stdout, stderr, rfl, hrc⟩
  · rfl
  · simp [get_changed_files, hrc]

/-- Claim C4 witness: a concrete raised git subprocess degrades to the
    full walk. -/
theorem get_changed_files_degrades_witness :
    get_changed_files [S "repo"] (S ".html") demoTree demoGit demoExists
      = find_files [S "repo"] (S ".html") demoTree :=
  get_changed_files_degrades_on_diff_failure [S "repo"] (S ".html") demoTree
    demoExists demoGit (Or.inl ⟨S "boom", rfl⟩)

/-- Claim C5: the command-line override always wins; without an override a
    pull-request event selects the changed-only scan and every other event
    (including a push to a trunk branch) selects the full scan. -/
theorem get_affected_files_mode_selection (env : GhEnv) (repoSegs : List PyStr)
    (pat : PyStr) (tree : FS) (git : GitOutcome) (existsCheck : List PyStr → Bool) :
    (env.scanMode = some ScanMode.all →
      get_affected_files env repoSegs pat tree git existsCheck
        = find_files repoSegs pat tree)
    ∧ (env.scanMode = some ScanMode.affected →
      get_affected_files env repoSegs pat tree git existsCheck
        = get_changed_files repoSegs pat tree git existsCheck)
    ∧ (env.scanMode = none → env.eventName = S "pull_request" →
      get_affected_files env repoSegs pat tree git existsCheck
        = get_changed_files repoSegs pat tree git existsCheck)
    ∧ (env.scanMode = none → env.eventName ≠ S "pull_request" →
      get_affected_files env repoSegs pat tree git existsCheck
        = find_files repoSegs pat tree) := by
  refine ⟨fun h => ?_, fun h => ?_, fun h hpr => ?_, fun h hnpr => ?_⟩
  · simp [get_affected_files, h]
  · simp [get_affected_files, h]
  · simp [get_affected_files, h, hpr]
  · simp only [get_affected_files, h]
    rw [if_neg (by simpa using hnpr)]
    split <;> rfl

/-- Claim C5 witness: auto mode on a direct push to `main` runs the full
    scan. -/
theorem get_affected_files_mode_selection_witness :
    get_affected_files demoEnvPush [S "repo"] (S ".html") demoTree demoGit demoExists
      = find_files [S "repo"] (S ".html") demoTree :=
  (get_affected_files_mode_selection demoEnvPush [S "repo"] (S ".html") demoTree
    demoGit demoExists).2.2.2 rfl (by decide)

/-- Claim C6 counterexample: the claim says the process exits non-zero on
    user interrupt, but the `except KeyboardInterrupt` handler only prints
    a warning and `main` returns normally, so the exit code is 0. -/
theorem main_interrupt_exit_zero :
    ¬ (mainExitCode RunOutcome.interrupt ≠ 0) := by decide

/-- Claim C6 (amended): exit code 0 on success, non-zero (1) on an unhandled
    top-level error, and 0 — not non-zero — on KeyboardInterrupt, whose
    handler prints a warning and falls through. -/
theorem main_exit_codes :
    mainExitCode RunOutcome.success = 0
    ∧ (∀ m, mainExitCode (RunOutcome.exn m) ≠ 0)
    ∧ mainExitCode RunOutcome.interrupt = 0 :=
  ⟨rfl, fun m => by simp [mainExitCode], rfl⟩

/-- Claim C6 witness: a concrete unhandled error exits non-zero. -/
theorem main_exit_codes_witness :
    mainExitCode (RunOutcome.exn (S "boom")) ≠ 0 :=
  main_exit_codes.2.1 (S "boom")

/-- Claim C7 (code-bug evidence): with one scanned file carrying exactly one
    violation, the document contains exactly one rendered section per file,
    yet the sanity check fires (even at a plausible 200-line document)
    because line 679 compares the file count with `len(results_html)`,
    which counts appended HTML fragments (3 here), not per-file sections. -/
theorem sanity_check_counts_fragments :
    sectionTotal c7results = totalFiles c7results
    ∧ resultsHtmlLen c7results = 3
    ∧ sanity_warn 200 c7results = true := by decide

/-- Claim C9: during the tree walk, a directory whose accumulated root path
    contains an excluded name as a substring (such as `repo/distribution`
    containing `dist`) has all of its subdirectories pruned, while a file
    directly inside it is still reported iff it matches the extension
    pattern and `should_exclude_file` (exact-segment and filename-pattern
    exclusion) does not fire on its path. -/
theorem find_files_substring_prune (pat : PyStr) (segs : List PyStr)
    (files : List PyStr) (children : FS)
    (hc : isForestSpine children = true)
    (h : EXCLUDE_DIRS.any (fun excl => pyIn excl (joinPath segs)) = true) :
    walkFS pat segs (joinPath segs) (FS.dir files children) = fileHits pat segs files
    ∧ ∀ fn ∈ files,
        ((segs ++ [fn]) ∈ walkFS pat segs (joinPath segs) (FS.dir files children)
          ↔ fnmatchStarSuffix fn pat = true
            ∧ should_exclude_file (segs ++ [fn]) = false) := by
  have hnil := walkFS_spine_nil pat segs (joinPath segs) h children hc
  have heq : walkFS pat segs (joinPath segs) (FS.dir files children)
      = fileHits pat segs files := by
    simp [walkFS, hnil]
  refine ⟨heq, fun fn hfn => ?_⟩
  rw [heq]
  simp only [fileHits, List.mem_filterMap]
  constructor
  · rintro ⟨fn2, _, hsome⟩
    split at hsome
    · rename_i hcnd
      have hfn2 : fn2 = fn := by
        have h12 := List.append_cancel_left (Option.some.inj hsome)
        exact (List.singleton_inj.mp h12)
      rw [hfn2] at hcnd
      simpa [Bool.and_eq_true, Bool.not_eq_true'] using hcnd
    · exact absurd hsome (by simp)
  · rintro ⟨h1, h2⟩
    exact ⟨fn, hfn, by rw [if_pos (by simp [h1, h2])]⟩

/-- Claim C9 witness: `repo/distribution` contains `dist` as a substring,
    so its subdirectory `sub` is pruned while `page.html` directly inside
    it is still reported. -/
theorem find_files_substring_prune_witness :
    walkFS (S ".html") [S "repo", S "distribution"]
        (joinPath [S "repo", S "distribution"])
        (FS.dir [S "page.html"] demoDistChildren)
      = fileHits (S ".html") [S "repo", S "distribution"] [S "page.html"] :=
  (find_files_substring_prune (S ".html") [S "repo", S "distribution"]
    [S "page.html"] demoDistChildren (by decide) (by decide)).1

/-- Claim C10: every fallback success result has literally empty `passes`,
    `incomplete` and `inapplicable` lists, so such a file contributes
    nothing to the incomplete total or to the passed/inapplicable coverage
    sets, and its clean-versus-findings rendering state is decided by its
    violations list alone. -/
theorem fallback_result_empty_secondary_lists (content : PyStr) :
    (altResult content).passes = []
    ∧ (altResult content).incomplete = []
    ∧ (altResult content).inapplicable = []
    ∧ incompleteContribution (altRValue content) = 0
    ∧ passedIdsOf (altRValue content) = []
    ∧ inapplicableIdsOf (altRValue content) = []
    ∧ (renderClass (altRValue content) = RenderClass.findings
        ↔ (altResult content).violations ≠ []) := by
  refine ⟨rfl, rfl, rfl, rfl, rfl, rfl, ?_⟩
  have hi : (altResult content).incomplete = [] := rfl
  cases hv : (altResult content).violations with
  | nil => simp [altRValue, renderClass, hv, hi]
  | cons a l => simp [altRValue, renderClass, hv, hi]

/-- Claim C10 witness: the property at the spec example document. -/
theorem fallback_result_empty_secondary_lists_witness :
    (altResult exampleDoc).passes = []
    ∧ (altResult exampleDoc).incomplete = []
    ∧ (altResult exampleDoc).inapplicable = []
    ∧ incompleteContribution (altRValue exampleDoc) = 0
    ∧ passedIdsOf (altRValue exampleDoc) = []
    ∧ inapplicableIdsOf (altRValue exampleDoc) = []
    ∧ (renderClass (altRValue exampleDoc) = RenderClass.findings
        ↔ (altResult exampleDoc).violations ≠ []) :=
  fallback_result_empty_secondary_lists exampleDoc

/-- Claim C1 (amended): provided the locator outputs at most
    `Config.FILE_LIMITS["html"]` files and their relative paths are
    pairwise distinct, every located file is scanned once, the written JSON
    report's key list is exactly the list of scanned relative paths (hence
    its key set equals that set, without duplicates), and the aggregate's
    file count equals the locator's output count. -/
theorem run_scan_one_result_per_target (repoSegs : List PyStr)
    (located : List (List PyStr)) (scan : List PyStr → Json)
    (h1 : (located.map (relPath repoSegs)).Nodup)
    (h2 : located.length ≤ FILE_LIMIT_HTML) :
    (generate_json_report (run_scan repoSegs located scan)).map Prod.fst
      = located.map (relPath repoSegs)
    ∧ (run_scan repoSegs located scan).length = located.length := by
  have htake : located.take FILE_LIMIT_HTML = located := List.take_of_length_le h2
  have hrs : run_scan repoSegs located scan
      = List.foldl (fun r f => pyDictInsert r (relPath repoSegs f) (scan f)) []
          (located.take FILE_LIMIT_HTML) := rfl
  have hkeys : (run_scan repoSegs located scan).map Prod.fst
      = located.map (relPath repoSegs) := by
    rw [hrs, htake]
    simpa using run_scan_fold_keys repoSegs scan located [] (by simpa using h1)
  refine ⟨hkeys, ?_⟩
  have := congrArg List.length hkeys
  simpa using this

/-- Claim C1 witness: two located files give a report keyed by exactly their
    two relative paths. -/
theorem run_scan_one_result_per_target_witness :
    (generate_json_report (run_scan [] demoLocated demoScan)).map Prod.fst
      = demoLocated.map (relPath [])
    ∧ (run_scan [] demoLocated demoScan).length = demoLocated.length :=
  run_scan_one_result_per_target [] demoLocated demoScan (by decide) (by decide)

/-- Claim C1 counterexample: with 1001 located files (distinct paths) the
    aggregate holds only 1000 entries — the truncation at line 703 makes
    the aggregate's file count differ from the locator's output count, so
    the claim as stated is false. -/
theorem run_scan_count_cap_counterexample :
    (run_scan [] cxLocated demoScan).length ≠ cxLocated.length := by
  have hinj : Function.Injective (fun n : Nat => List.replicate (n + 1) 'a') := by
    intro a b hab
    have := congrArg List.length hab
    simpa using this
  have htake : cxLocated.take FILE_LIMIT_HTML
      = (List.range 1000).map (fun n => [List.replicate (n + 1) 'a']) := by
    rw [cxLocated, FILE_LIMIT_HTML, ← List.map_take, List.take_range]
    norm_num
  have hmap : (cxLocated.take FILE_LIMIT_HTML).map (relPath [])
      = (List.range 1000).map (fun n => List.replicate (n + 1) 'a') := by
    rw [htake, List.map_map]
    exact List.map_congr_left (fun n _ => relPath_single (List.replicate (n + 1) 'a'))
  have hnodup : ((cxLocated.take FILE_LIMIT_HTML).map (relPath [])).Nodup := by
    rw [hmap]
    exact (List.nodup_range 1000).map hinj
  have hrs : run_scan [] cxLocated demoScan
      = List.foldl (fun r f => pyDictInsert r (relPath [] f) (demoScan f)) []
          (cxLocated.take FILE_LIMIT_HTML) := rfl
  have hkeys : (run_scan [] cxLocated demoScan).map Prod.fst
      = (cxLocated.take FILE_LIMIT_HTML).map (relPath []) := by
    rw [hrs]
    simpa using run_scan_fold_keys [] demoScan (cxLocated.take FILE_LIMIT_HTML) []
      (by simpa using hnodup)
  have hlen : (run_scan [] cxLocated demoScan).length = 1000 := by
    have := congrArg List.length hkeys
    rw [List.length_map, List.length_map] at this
    rw [this, htake]
    simp
  have hlen2 : cxLocated.length = 1001 := by simp [cxLocated]
  rw [hlen, hlen2]
  omega

/-- Claim C8: for any locator output with pairwise distinct relative paths,
    at most 1000 files are reported, the report keys are exactly the
    relative paths of the first 1000 located files, and every located file
    beyond the cap is absent from the report. -/
theorem run_scan_file_cap (repoSegs : List PyStr) (located : List (List PyStr))
    (scan : List PyStr → Json)
    (h : (located.map (relPath repoSegs)).Nodup) :
    (run_scan repoSegs located scan).length ≤ FILE_LIMIT_HTML
    ∧ (run_scan repoSegs located scan).map Prod.fst
        = (located.take FILE_LIMIT_HTML).map (relPath repoSegs)
    ∧ ∀ f ∈ located.drop FILE_LIMIT_HTML,
        relPath repoSegs f ∉ (run_scan repoSegs located scan).map Prod.fst := by
  have hmt : (located.take FILE_LIMIT_HTML).map (relPath repoSegs)
      = (located.map (relPath repoSegs)).take FILE_LIMIT_HTML :=
    List.map_take (relPath repoSegs) located FILE_LIMIT_HTML
  have hnodup_take : ((located.take FILE_LIMIT_HTML).map (relPath repoSegs)).Nodup := by
    rw [hmt]
    exact List.Nodup.sublist (List.take_sublist _ _) h
  have hrs : run_scan repoSegs located scan
      = List.foldl (fun r f => pyDictInsert r (relPath repoSegs f) (scan f)) []
          (located.take FILE_LIMIT_HTML) := rfl
  have hkeys : (run_scan repoSegs located scan).map Prod.fst
      = (located.take FILE_LIMIT_HTML).map (relPath repoSegs) := by
    rw [hrs]
    simpa using run_scan_fold_keys repoSegs scan (located.take FILE_LIMIT_HTML) []
      (by simpa using hnodup_take)
  refine ⟨?_, hkeys, ?_⟩
  · have := congrArg List.length hkeys
    rw [List.length_map, List.length_map] at this
    rw [this, List.length_take]
    exact min_le_left _ _
  · intro f hf hmem
    rw [hkeys, hmt] at hmem
    have hfd : relPath repoSegs f ∈ (located.map (relPath repoSegs)).drop FILE_LIMIT_HTML := by
      rw [← List.map_drop]
      exact List.mem_map_of_mem _ hf
    have hsplit : located.map (relPath repoSegs)
        = (located.map (relPath repoSegs)).take FILE_LIMIT_HTML
          ++ (located.map (relPath repoSegs)).drop FILE_LIMIT_HTML :=
      (List.take_append_drop _ _).symm
    have h2 := h
    rw [hsplit] at h2
    rcases List.nodup_append.mp h2 with ⟨_, _, hdisj⟩
    exact hdisj hmem hfd

/-- Claim C8 witness: the cap statement at a concrete two-file locator
    output. -/
theorem run_scan_file_cap_witness :
    (run_scan [] demoLocated demoScan).length ≤ FILE_LIMIT_HTML
    ∧ (run_scan [] demoLocated demoScan).map Prod.fst
        = (demoLocated.take FILE_LIMIT_HTML).map (relPath [])
    ∧ ∀ f ∈ demoLocated.drop FILE_LIMIT_HTML,
        relPath [] f ∉ (run_scan [] demoLocated demoScan).map Prod.fst :=
  run_scan_file_cap [] demoLocated demoScan (by decide)

end WCAG
